import Mathlib

/-!
Shallow embedding of the schema-adaptive query planner in
`Team3/streamlit_app/BenAu/BEN_app4.py`: column resolution (`pick_first`),
plan construction (`build_plan`), the synthesized SQL fragments (salary
midpoint, status normalization, joined CTE, WHERE builder), and the
two-phase heatmap aggregation (`load_heatmap_agg`).  SQL fragments are
embedded both as the text the source emits and as a denotational semantics
over nullable rational values (SQL NULL is `Option.none`); machine doubles
are modelled as exact rationals.
-/

namespace SGJob

/-- `pick_first(cols, candidates)` of `BEN_app4.py` (lines 72-76): the first
candidate name occurring in `cols`, scanning `candidates` in order; `none`
when no candidate occurs. -/
def pick_first (cols : List String) : List String → Option String
  | [] => none
  | c :: rest => if c ∈ cols then some c else pick_first cols rest

/-- `build_status_group_expr(status_expr)` of `BEN_app4.py` (lines 193-202):
the CASE expression text, with the scrutinized status expression spliced in. -/
def build_status_group_expr (status_expr : String) : String :=
  "\n    CASE\n      WHEN " ++ status_expr ++ " IS NULL THEN NULL\n      WHEN lower("
    ++ status_expr ++ ") IN ('re-open','reopen','re-opened','reopened') THEN 'Open'\n      WHEN lower("
    ++ status_expr ++ ") = 'open' THEN 'Open'\n      WHEN lower("
    ++ status_expr ++ ") = 'closed' THEN 'Closed'\n      ELSE "
    ++ status_expr ++ "\n    END\n    "

/-- SQL `lower`, modelled character by character. -/
def sql_lower (s : String) : String :=
  ⟨s.data.map Char.toLower⟩

/-- Denotation of the CASE expression emitted by `build_status_group_expr`,
as a function of the nullable status value its scrutinee evaluates to: the
WHEN branches are tried in source order and SQL `lower` is `sql_lower`. -/
def status_case_eval : Option String → Option String
  | none => none
  | some s =>
    if sql_lower s ∈ ["re-open", "reopen", "re-opened", "reopened"] then some "Open"
    else if sql_lower s = "open" then some "Open"
    else if sql_lower s = "closed" then some "Closed"
    else some s

/-- The resolved query plan (the dict returned by `build_plan`, lines
154-162): each field holds the physical column name `pick_first` resolved,
or `none` when no candidate matched. -/
structure Plan where
  b_key : String
  c_key : Option String
  e_key : Option String
  r_key : Option String
  b_title : Option String
  b_company : Option String
  b_emp : Option String
  b_level : Option String
  b_sal_min : Option String
  b_sal_max : Option String
  b_status : Option String
  c_primary : Option String
  e_avg : Option String
  e_emp : Option String
  e_level : Option String
  e_primary : Option String
  e_sal_min : Option String
  e_sal_max : Option String
  e_status : Option String
  r_status : Option String
  deriving DecidableEq

/-- `sql_try_double(expr)` of `BEN_app4.py` (lines 98-99). -/
def sql_try_double (expr : String) : String :=
  "try_cast(" ++ expr ++ " AS DOUBLE)"

/-- The numeric SQL fragments `build_salary_mid_expr` assembles: a try-cast
of a table-qualified column to DOUBLE, or the midpoint of two fragments. -/
inductive SqlNum where
  | tryD (col : String) : SqlNum
  | avg2 (mn mx : SqlNum) : SqlNum
  deriving DecidableEq

/-- The SQL text of a `SqlNum`, exactly as `build_salary_mid_expr` emits it. -/
def SqlNum.render : SqlNum → String
  | .tryD c => sql_try_double c
  | .avg2 a b => "((" ++ a.render ++ " + " ++ b.render ++ ") / 2.0)"

/-- A raw SQL cell value: NULL, a numeric value, or text. -/
inductive Val where
  | null : Val
  | num (q : ℚ) : Val
  | text (s : String) : Val
  deriving DecidableEq

/-- DuckDB `try_cast(... AS DOUBLE)`: NULL casts to NULL, a number to itself,
and text goes through the engine's parse function `parse`, becoming NULL
(`none`) rather than raising when it does not parse as a number. -/
def tryCastDouble (parse : String → Option ℚ) : Val → Option ℚ
  | .null => none
  | .num q => some q
  | .text s => parse s

/-- NULL-propagating midpoint: SQL `(a + b) / 2.0` is NULL when either
operand is NULL. -/
def nullAvg : Option ℚ → Option ℚ → Option ℚ
  | some x, some y => some ((x + y) / 2)
  | _, _ => none

/-- Evaluation of a numeric fragment under a row valuation `ρ` (qualified
column name to raw cell value). -/
def SqlNum.eval (parse : String → Option ℚ) (ρ : String → Val) : SqlNum → Option ℚ
  | .tryD c => tryCastDouble parse (ρ c)
  | .avg2 a b => nullAvg (a.eval parse ρ) (b.eval parse ρ)

/-- SQL `coalesce`: the first non-NULL value of the list, NULL when all are
NULL (or the list is empty). -/
def coalesceVals (xs : List (Option ℚ)) : Option ℚ :=
  xs.findSome? id

/-- The explicit average-salary piece of `build_salary_mid_expr` (lines
166-167): present exactly when the enriched table is joined (`e_key`) and an
average-salary column resolved (`e_avg`). -/
def avg_piece (plan : Plan) : Option SqlNum :=
  match plan.e_key, plan.e_avg with
  | some _, some c => some (.tryD ("e." ++ c))
  | _, _ => none

/-- `min_expr` of `build_salary_mid_expr` (lines 172-175): the enriched
minimum-salary column when the enriched table is joined and resolves one,
else the base minimum, else absent. -/
def min_piece (plan : Plan) : Option SqlNum :=
  match plan.e_key, plan.e_sal_min with
  | some _, some c => some (.tryD ("e." ++ c))
  | _, _ =>
    match plan.b_sal_min with
    | some c => some (.tryD ("b." ++ c))
    | none => none

/-- `max_expr` of `build_salary_mid_expr` (lines 177-180), analogous to
`min_piece`. -/
def max_piece (plan : Plan) : Option SqlNum :=
  match plan.e_key, plan.e_sal_max with
  | some _, some c => some (.tryD ("e." ++ c))
  | _, _ =>
    match plan.b_sal_max with
    | some c => some (.tryD ("b." ++ c))
    | none => none

/-- The `pieces` list of `build_salary_mid_expr` (lines 165-189), in
emission order: the average piece first, then — depending on which salary
bounds resolved — the (min+max)/2 midpoint followed by min and max alone,
or the single resolved bound. -/
def build_salary_mid_pieces (plan : Plan) : List SqlNum :=
  (avg_piece plan).toList ++
    match min_piece plan, max_piece plan with
    | some mn, some mx => [.avg2 mn mx, mn, mx]
    | some mn, none => [mn]
    | none, some mx => [mx]
    | none, none => []

/-- `build_salary_mid_expr(plan)` of `BEN_app4.py` (lines 164-191), as text:
a typed NULL when no piece resolved, else a coalesce of the pieces. -/
def build_salary_mid_expr (plan : Plan) : String :=
  match build_salary_mid_pieces plan with
  | [] => "NULL::DOUBLE"
  | ps => "coalesce(" ++ String.intercalate ", " (ps.map SqlNum.render) ++ ")"

/-- Denotation of the salary-midpoint expression on one row: `NULL::DOUBLE`
evaluates to NULL and the coalesce takes the first non-NULL piece. -/
def salary_mid_eval (parse : String → Option ℚ) (ρ : String → Val) (plan : Plan) : Option ℚ :=
  coalesceVals ((build_salary_mid_pieces plan).map (SqlNum.eval parse ρ))

/-- The join-key candidate list of `build_plan` (line 114). -/
def key_candidates : List String :=
  ["metadata_jobPostId", "job_post_id", "jobPostId", "job_id", "metadata_job_post_id"]

/-- The status-column candidate list of `build_plan` (lines 131, 143, 146). -/
def status_candidates : List String :=
  ["status_jobStatus", "status_job_status", "jobStatus", "job_status"]

/-- Boolean success test on an `Except` result. -/
def except_ok {ε α : Type} : Except ε α → Bool
  | .ok _ => true
  | .error _ => false

/-- `build_plan` of `BEN_app4.py` (lines 104-162) as a function of the four
probed column lists (`cols_r` already defaulted to `[]` when the raw-table
probe failed, as the `try/except` on lines 109-112 does): every field is
resolved with `pick_first`, and a `RuntimeError` is raised exactly when a
required field (base join key, employment type, position level) is
unresolvable. -/
def build_plan (cols_b cols_c cols_e cols_r : List String) : Except String Plan :=
  match pick_first cols_b key_candidates with
  | none => .error "Cannot find join key in jobs_base."
  | some b_key =>
    let c_key := pick_first cols_c key_candidates
    let e_key := pick_first cols_e key_candidates
    let r_key := if cols_r.isEmpty then none else pick_first cols_r key_candidates
    let b_title := pick_first cols_b ["title"]
    let b_company := pick_first cols_b ["postedCompany_name", "company_name", "posted_company_name"]
    let b_emp := pick_first cols_b ["employmentTypes", "employment_type"]
    let b_level := pick_first cols_b ["positionLevels", "position_level"]
    let b_sal_min := pick_first cols_b ["salary_minimum", "salary_min"]
    let b_sal_max := pick_first cols_b ["salary_maximum", "salary_max"]
    let b_status := pick_first cols_b status_candidates
    let c_primary := pick_first cols_c ["primary_category", "primaryCategory", "category", "category_name"]
    let e_avg := pick_first cols_e ["avg_salary", "average_salary", "salary_mid", "salary_midpoint"]
    let e_emp := pick_first cols_e ["employment_type", "employmentTypes"]
    let e_level := pick_first cols_e ["position_level", "positionLevels"]
    let e_primary := pick_first cols_e ["primary_category"]
    let e_sal_min := pick_first cols_e ["salary_min", "salary_minimum"]
    let e_sal_max := pick_first cols_e ["salary_max", "salary_maximum"]
    let e_status := pick_first cols_e status_candidates
    let r_status := if cols_r.isEmpty then none else pick_first cols_r status_candidates
    if !(b_emp.isSome || e_emp.isSome) then
      .error "Cannot find employment type column in base or enriched."
    else if !(b_level.isSome || e_level.isSome) then
      .error "Cannot find position level column in base or enriched."
    else
      .ok { b_key, c_key, e_key, r_key, b_title, b_company, b_emp, b_level,
            b_sal_min, b_sal_max, b_status, c_primary, e_avg, e_emp, e_level,
            e_primary, e_sal_min, e_sal_max, e_status, r_status }

/-- A probed database for the schema prober: table name to column list when
the table is present, `none` when the table is absent. -/
abbrev Db := String → Option (List String)

/-- `get_table_cols` of `BEN_app4.py` (lines 67-70) over a probed database:
`PRAGMA table_info` yields the column list of a present table and raises on
an absent one. -/
def get_table_cols (db : Db) (table : String) : Except String (List String) :=
  match db table with
  | some cols => .ok cols
  | none => .error ("no such table: " ++ table)

/-- The probing stage of `build_plan` (lines 106-112): the base, categories
and enriched probes propagate failure; only the raw-table probe is guarded
by `try/except`, defaulting to an empty column list. -/
def build_plan_db (db : Db) : Except String Plan := do
  let cols_b ← get_table_cols db "jobs_base"
  let cols_c ← get_table_cols db "jobs_categories"
  let cols_e ← get_table_cols db "jobs_enriched"
  let cols_r := match get_table_cols db "jobs_raw" with
    | .ok cols => cols
    | .error _ => []
  build_plan cols_b cols_c cols_e cols_r

/-- Python `f"...{x}..."` splicing of an optional field: `None` renders as
the literal text "None". -/
def pyStr : Option String → String
  | some s => s
  | none => "None"

/-- The `join_enr` fragment of `joined_cte_sql` (line 205): a LEFT JOIN of
the enriched table exactly when its join key resolved. -/
def join_enr (plan : Plan) : String :=
  match plan.e_key with
  | some ek => "LEFT JOIN jobs_enriched e ON b." ++ plan.b_key ++ " = e." ++ ek
  | none => ""

/-- The `join_cat` fragment of `joined_cte_sql` (line 206). -/
def join_cat (plan : Plan) : String :=
  match plan.c_key with
  | some ck => "LEFT JOIN jobs_categories c ON b." ++ plan.b_key ++ " = c." ++ ck
  | none => ""

/-- The `join_raw` fragment of `joined_cte_sql` (lines 208-211): emitted only
when neither the base table nor the joined enriched table supplies a status
column, and the raw table resolved both a join key and a status column. -/
def join_raw (plan : Plan) : String :=
  if plan.b_status.isSome || (plan.e_key.isSome && plan.e_status.isSome) then ""
  else
    match plan.r_key, plan.r_status with
    | some rk, some _ => "LEFT JOIN jobs_raw r ON b." ++ plan.b_key ++ " = r." ++ rk
    | _, _ => ""

/-- `pos_expr` of `joined_cte_sql` (line 215): the enriched position-level
column when the enriched table is joined and resolves one, else the base
column. -/
def pos_expr (plan : Plan) : String :=
  if plan.e_key.isSome && plan.e_level.isSome then "e." ++ pyStr plan.e_level
  else "b." ++ pyStr plan.b_level

/-- `emp_expr` of `joined_cte_sql` (line 216), analogous to `pos_expr`. -/
def emp_expr (plan : Plan) : String :=
  if plan.e_key.isSome && plan.e_emp.isSome then "e." ++ pyStr plan.e_emp
  else "b." ++ pyStr plan.b_emp

/-- `primary_expr` of `joined_cte_sql` (lines 218-223): the category table's
column, else the joined enriched table's, else NULL. -/
def primary_expr (plan : Plan) : String :=
  match plan.c_primary with
  | some cp => "c." ++ cp
  | none =>
    if plan.e_key.isSome && plan.e_primary.isSome then "e." ++ pyStr plan.e_primary
    else "NULL"

/-- `status_expr` of `joined_cte_sql` (lines 225-232): the base status
column, else the enriched status column when the enriched table is joined,
else the raw table's status column whenever it resolved — note the source
conditions this branch on `r_status` alone, not on the raw join key — else
NULL. -/
def status_expr (plan : Plan) : String :=
  match plan.b_status with
  | some bs => "b." ++ bs
  | none =>
    if plan.e_key.isSome && plan.e_status.isSome then "e." ++ pyStr plan.e_status
    else
      match plan.r_status with
      | some rs => "r." ++ rs
      | none => "NULL"

/-- `joined_cte_sql(plan)` of `BEN_app4.py` (lines 204-252): the WITH clause
text selecting the join key and every resolved or derived expression from
the base table, left-joined to the enriched, category and (conditionally)
raw tables. -/
def joined_cte_sql (plan : Plan) : String :=
  "\n    WITH joined AS (\n      SELECT\n        b." ++ plan.b_key ++ " AS job_post_id,\n        "
    ++ (match plan.b_title with | some t => "b." ++ t | none => "NULL") ++ " AS title,\n        "
    ++ (match plan.b_company with | some t => "b." ++ t | none => "NULL") ++ " AS company_name,\n        "
    ++ build_salary_mid_expr plan ++ " AS salary_mid,\n        "
    ++ pos_expr plan ++ " AS position_level,\n        "
    ++ emp_expr plan ++ " AS employment_type,\n        "
    ++ primary_expr plan ++ " AS primary_category,\n        "
    ++ build_status_group_expr (status_expr plan) ++ " AS status_group\n      FROM jobs_base b\n      "
    ++ join_enr plan ++ "\n      " ++ join_cat plan ++ "\n      " ++ join_raw plan ++ "\n    )\n    "

/-- The predicate texts `build_where_and_params` appends (lines 291-306):
one fixed set-membership clause per non-empty filter list, in source order.
The member values never appear in the text — they go into the parameter
list. -/
def where_clauses (levels cats emps status_groups : List String) : List String :=
  (if levels.isEmpty then [] else ["position_level = ANY(?)"]) ++
    (if cats.isEmpty then [] else ["primary_category = ANY(?)"]) ++
      (if emps.isEmpty then [] else ["employment_type = ANY(?)"]) ++
        (if status_groups.isEmpty then [] else ["status_group = ANY(?)"])

/-- The bound-parameter lists `build_where_and_params` appends, in the same
order as `where_clauses`. -/
def where_params (levels cats emps status_groups : List String) : List (List String) :=
  (if levels.isEmpty then [] else [levels]) ++
    (if cats.isEmpty then [] else [cats]) ++
      (if emps.isEmpty then [] else [emps]) ++
        (if status_groups.isEmpty then [] else [status_groups])

/-- `build_where_and_params` of `BEN_app4.py` (lines 291-309): the WHERE
text ("1=1" when every filter list is empty, else the AND-joined clauses)
together with the bound parameters. -/
def build_where_and_params (levels cats emps status_groups : List String) :
    String × List (List String) :=
  let ws := where_clauses levels cats emps status_groups
  (if ws.isEmpty then "1=1" else String.intercalate " AND " ws,
    where_params levels cats emps status_groups)

/-- A row of the synthesized `joined` CTE, restricted to the projected
columns the filters and the heatmap aggregation read; every column is
nullable. -/
structure JoinedRow where
  salary_mid : Option ℚ
  position_level : Option String
  employment_type : Option String
  primary_category : Option String
  status_group : Option String
  deriving DecidableEq

/-- SQL `col = ANY(?)` on a nullable column: a NULL column value compares
unknown, which WHERE filters out. -/
def memPred (vals : List String) : Option String → Bool
  | some v => vals.contains v
  | none => false

/-- Denotation of one emitted clause under its bound parameter list. -/
def clause_holds (r : JoinedRow) (clause : String) (vals : List String) : Bool :=
  if clause = "position_level = ANY(?)" then memPred vals r.position_level
  else if clause = "primary_category = ANY(?)" then memPred vals r.primary_category
  else if clause = "employment_type = ANY(?)" then memPred vals r.employment_type
  else if clause = "status_group = ANY(?)" then memPred vals r.status_group
  else false

/-- Denotation of the WHERE text `build_where_and_params` emits: the
conjunction of its clauses applied to their zipped bound parameters (the
empty conjunction is "1=1", which every row satisfies). -/
def where_holds (levels cats emps status_groups : List String) (r : JoinedRow) : Bool :=
  ((where_clauses levels cats emps status_groups).zip
      (where_params levels cats emps status_groups)).all
    (fun cp => clause_holds r cp.1 cp.2)

/-- Insertion of a value into an ascending sorted list. -/
def insertSorted (x : ℚ) : List ℚ → List ℚ
  | [] => [x]
  | y :: ys => if x ≤ y then x :: y :: ys else y :: insertSorted x ys

/-- Ascending insertion sort, modelling the ordering the SQL engine applies
before interpolating a continuous quantile. -/
def sortQ (xs : List ℚ) : List ℚ :=
  xs.foldr insertSorted []

/-- DuckDB `quantile_cont(x, p)`: NULL over an empty population, else linear
interpolation at rank `p * (n - 1)` of the ascending sorted values. -/
def quantile_cont (p : ℚ) (xs : List ℚ) : Option ℚ :=
  match sortQ xs with
  | [] => none
  | x :: rest =>
    let sorted := x :: rest
    let n := sorted.length
    let h : ℚ := p * ((n : ℚ) - 1)
    let lo : ℤ := ⌊h⌋
    let xlo := sorted.getD lo.toNat 0
    let xhi := sorted.getD (min (lo.toNat + 1) (n - 1)) 0
    some (xlo + (h - (lo : ℚ)) * (xhi - xlo))

/-- The filtered population shared by both phases of `load_heatmap_agg`
(lines 348-355 and 371-379): the WHERE predicate plus the non-null
conditions on `salary_mid` and `position_level`. -/
def heat_filter (levels cats emps status_groups : List String) (rows : List JoinedRow) :
    List JoinedRow :=
  rows.filter (fun r =>
    where_holds levels cats emps status_groups r &&
      r.salary_mid.isSome && r.position_level.isSome)

/-- The non-null salary midpoints of a row list. -/
def heat_values (rows : List JoinedRow) : List ℚ :=
  rows.filterMap (fun r => r.salary_mid)

/-- `floor(v / bin_size) * bin_size`, the `bin_start` computation of the
aggregation query (line 388). -/
def bin_start_of (bin_size v : ℚ) : ℚ :=
  ⌊v / bin_size⌋ * bin_size

/-- The GROUP BY key of each filtered row: its position level and the bin
start of its midpoint clamped at the cap (`least(salary_mid, cap)`,
line 383). -/
def heat_keys (bin_size cap : ℚ) (rows : List JoinedRow) : List (String × ℚ) :=
  rows.map (fun r =>
    (r.position_level.getD "", bin_start_of bin_size (min (r.salary_mid.getD 0) cap)))

/-- SQL `GROUP BY 1, 2` with `count(*)`: every distinct key paired with its
multiplicity. -/
def group_counts {α : Type} [DecidableEq α] (keys : List α) : List (α × ℕ) :=
  keys.dedup.map (fun k => (k, keys.count k))

/-- One output row of the heatmap aggregation. -/
structure HeatRow where
  position_level : String
  bin_start : ℚ
  cnt : ℕ
  cap : ℚ
  bin_size : ℚ
  deriving DecidableEq

/-- The result table of `load_heatmap_agg`: its column list and its rows. -/
structure HeatTable where
  columns : List String
  rows : List HeatRow
  deriving DecidableEq

/-- The fixed output columns of `load_heatmap_agg` (line 365 and lines
386-399). -/
def heat_columns : List String :=
  ["position_level", "bin_start", "cnt", "cap", "bin_size"]

/-- One output row of the aggregation: a group key with its count, with the
cap and the bin width attached (lines 398-399). -/
def heat_row_of (cap bin_size : ℚ) (kc : (String × ℚ) × ℕ) : HeatRow :=
  { position_level := kc.1.1, bin_start := kc.1.2, cnt := kc.2,
    cap := cap, bin_size := bin_size }

/-- `load_heatmap_agg` of `BEN_app4.py` (lines 341-400) over the joined
rows: phase 1 computes the percentile cap of the filtered non-null salary
midpoints; a NULL (undefined) or non-positive cap short-circuits to the
well-formed empty table; phase 2 bins the clamped midpoints with width
`max(cap / nbinsy, 1.0)`, groups by (position level, bin start), counts,
and attaches the cap and the bin width to every output row. -/
def load_heatmap_agg (rows : List JoinedRow) (levels cats emps status_groups : List String)
    (salary_cap_pct : ℚ) (nbinsy : ℕ) : HeatTable :=
  let filtered := heat_filter levels cats emps status_groups rows
  match quantile_cont salary_cap_pct (heat_values filtered) with
  | none => { columns := heat_columns, rows := [] }
  | some cap_val =>
    if cap_val ≤ 0 then { columns := heat_columns, rows := [] }
    else
      let bin_size := max (cap_val / (nbinsy : ℚ)) 1
      { columns := heat_columns,
        rows := (group_counts (heat_keys bin_size cap_val filtered)).map
          (heat_row_of cap_val bin_size) }

/-- A single filtered row with midpoint 10 at position level "L". -/
def c8w_rows : List JoinedRow :=
  [{ salary_mid := some 10, position_level := some "L", employment_type := none,
     primary_category := none, status_group := none }]

/-- Six filtered rows at position level "L" whose salary midpoints include
negative values: [-5, -4, -3, -2, 1, 9]. -/
def c8_rows : List JoinedRow :=
  [{ salary_mid := some (-5), position_level := some "L", employment_type := none,
     primary_category := none, status_group := none },
   { salary_mid := some (-4), position_level := some "L", employment_type := none,
     primary_category := none, status_group := none },
   { salary_mid := some (-3), position_level := some "L", employment_type := none,
     primary_category := none, status_group := none },
   { salary_mid := some (-2), position_level := some "L", employment_type := none,
     primary_category := none, status_group := none },
   { salary_mid := some 1, position_level := some "L", employment_type := none,
     primary_category := none, status_group := none },
   { salary_mid := some 9, position_level := some "L", employment_type := none,
     primary_category := none, status_group := none }]

/-- C1: column resolution is deterministic first-match.  `pick_first` returns
`some c` exactly when `c` is in the present columns and every
earlier-declared candidate is absent (candidate-list order, not alphabetical
or column order), and returns `none` (absence, not an error) exactly when no
candidate is present. -/
theorem pick_first_first_match (cols candidates : List String) :
    (∀ c : String, pick_first cols candidates = some c ↔
      ∃ pre post, candidates = pre ++ c :: post ∧ c ∈ cols ∧ ∀ d ∈ pre, d ∉ cols) ∧
    (pick_first cols candidates = none ↔ ∀ c ∈ candidates, c ∉ cols) := by
  induction candidates with
  | nil =>
    constructor
    · intro c
      constructor
      · intro h
        simp [pick_first] at h
      · rintro ⟨pre, post, h, -, -⟩
        exact absurd h.symm (by simp)
    · simp [pick_first]
  | cons a rest ih =>
    constructor
    · intro c
      by_cases ha : a ∈ cols
      · constructor
        · intro h
          rw [show pick_first cols (a :: rest) = some a by simp [pick_first, ha]] at h
          obtain rfl : a = c := Option.some.inj h
          exact ⟨[], rest, rfl, ha, by simp⟩
        · rintro ⟨pre, post, heq, hc, hpre⟩
          cases pre with
          | nil =>
            obtain ⟨rfl, rfl⟩ : a = c ∧ rest = post := by simpa using heq
            simp [pick_first, ha]
          | cons p pre' =>
            obtain ⟨rfl, -⟩ : a = p ∧ rest = pre' ++ c :: post := by simpa using heq
            exact absurd ha (hpre a (by simp))
      · rw [show pick_first cols (a :: rest) = pick_first cols rest by
          simp [pick_first, ha]]
        constructor
        · intro h
          obtain ⟨pre, post, heq, hc, hpre⟩ := (ih.1 c).mp h
          refine ⟨a :: pre, post, by simp [heq], hc, ?_⟩
          intro d hd
          rcases List.mem_cons.mp hd with rfl | hd
          · exact ha
          · exact hpre d hd
        · rintro ⟨pre, post, heq, hc, hpre⟩
          cases pre with
          | nil =>
            obtain ⟨rfl, -⟩ : a = c ∧ rest = post := by simpa using heq
            exact absurd hc ha
          | cons p pre' =>
            obtain ⟨rfl, htl⟩ : a = p ∧ rest = pre' ++ c :: post := by simpa using heq
            exact (ih.1 c).mpr ⟨pre', post, htl, hc, fun d hd => hpre d (by simp [hd])⟩
    · by_cases ha : a ∈ cols
      · rw [show pick_first cols (a :: rest) = some a by simp [pick_first, ha]]
        constructor
        · intro h
          cases h
        · intro h
          exact absurd ha (h a (by simp))
      · rw [show pick_first cols (a :: rest) = pick_first cols rest by
          simp [pick_first, ha]]
        rw [ih.2]
        constructor
        · intro h c hc
          rcases List.mem_cons.mp hc with rfl | hc
          · exact ha
          · exact h c hc
        · intro h c hc
          exact h c (by simp [hc])

/-- C2: the status-normalization expression maps (case-insensitively) any
member of {"re-open","reopen","re-opened","reopened","open"} to exactly
"Open", maps "closed" (any case) to exactly "Closed", passes any other
non-null value through unchanged, and maps null to null. -/
theorem status_case_eval_spec :
    status_case_eval none = none ∧
    ∀ s : String,
      (sql_lower s ∈ ["re-open", "reopen", "re-opened", "reopened", "open"] →
        status_case_eval (some s) = some "Open") ∧
      (sql_lower s = "closed" → status_case_eval (some s) = some "Closed") ∧
      (sql_lower s ∉ ["re-open", "reopen", "re-opened", "reopened", "open"] →
        sql_lower s ≠ "closed" → status_case_eval (some s) = some s) := by
  refine ⟨rfl, fun s => ⟨fun h => ?_, fun h => ?_, fun h1 h2 => ?_⟩⟩
  · simp only [List.mem_cons, List.not_mem_nil, or_false] at h
    rcases h with h | h | h | h | h <;> simp [status_case_eval, h]
  · simp [status_case_eval, h]
  · have h3 : sql_lower s ∉ ["re-open", "reopen", "re-opened", "reopened"] := by
      intro hm
      exact h1 (by simp only [List.mem_cons, List.not_mem_nil, or_false] at hm ⊢; tauto)
    have h4 : sql_lower s ≠ "open" := by
      intro hm
      exact h1 (by simp [hm])
    simp [status_case_eval, h3, h4, h2]

/-- C2 witness: the concrete synonym "Re-Open" normalizes to "Open". -/
theorem status_case_eval_spec_witness :
    status_case_eval (some "Re-Open") = some "Open" :=
  (status_case_eval_spec.2 "Re-Open").1 (by decide)

theorem nullAvg_some_some (x y : ℚ) : nullAvg (some x) (some y) = some ((x + y) / 2) := rfl

theorem nullAvg_none_left (y : Option ℚ) : nullAvg none y = none := rfl

theorem nullAvg_some_none (x : ℚ) : nullAvg (some x) none = none := rfl

theorem coalesceVals_nil : coalesceVals [] = none := rfl

theorem coalesceVals_cons_some (v : ℚ) (xs : List (Option ℚ)) :
    coalesceVals (some v :: xs) = some v := rfl

theorem coalesceVals_cons_none (xs : List (Option ℚ)) :
    coalesceVals (none :: xs) = coalesceVals xs := rfl

theorem coalesceVals_cons_congr (x : Option ℚ) {xs ys : List (Option ℚ)}
    (h : coalesceVals xs = coalesceVals ys) :
    coalesceVals (x :: xs) = coalesceVals (x :: ys) := by
  cases x with
  | none => simpa [coalesceVals_cons_none] using h
  | some v => simp [coalesceVals_cons_some]

/-- C3: on every row the salary-midpoint expression is the coalesce of, in
order, the try-cast enriched average (when resolvable), the midpoint
(min+max)/2 of the resolved salary bounds, the resolved minimum alone and
the resolved maximum alone; it is the typed null `NULL::DOUBLE` when neither
an average nor any bound resolves; and the coercion of any non-numeric cell
goes through `tryCastDouble`, which yields NULL on unparseable text instead
of raising. -/
theorem salary_mid_eval_spec (parse : String → Option ℚ) (ρ : String → Val) (plan : Plan) :
    (salary_mid_eval parse ρ plan =
      coalesceVals
        [(avg_piece plan).bind (SqlNum.eval parse ρ),
          nullAvg ((min_piece plan).bind (SqlNum.eval parse ρ))
            ((max_piece plan).bind (SqlNum.eval parse ρ)),
          (min_piece plan).bind (SqlNum.eval parse ρ),
          (max_piece plan).bind (SqlNum.eval parse ρ)]) ∧
    (avg_piece plan = none → min_piece plan = none → max_piece plan = none →
      build_salary_mid_expr plan = "NULL::DOUBLE") ∧
    (∀ s : String, parse s = none → tryCastDouble parse (Val.text s) = none) ∧
    tryCastDouble parse Val.null = none := by
  have optHead : ∀ (o : Option SqlNum) (xs : List (Option ℚ)),
      coalesceVals (o.toList.map (SqlNum.eval parse ρ) ++ xs) =
        coalesceVals (o.bind (SqlNum.eval parse ρ) :: xs) := by
    intro o xs
    cases o <;> rfl
  refine ⟨?_, ?_, fun s hs => hs, rfl⟩
  · rw [salary_mid_eval, build_salary_mid_pieces, List.map_append, optHead]
    apply coalesceVals_cons_congr
    rcases hmin : min_piece plan with - | mn <;> rcases hmax : max_piece plan with - | mx
    · rfl
    · cases h : SqlNum.eval parse ρ mx <;>
        simp [SqlNum.eval, nullAvg_none_left, coalesceVals_cons_none,
          coalesceVals_cons_some, coalesceVals_nil, h]
    · cases h : SqlNum.eval parse ρ mn <;>
        simp [SqlNum.eval, nullAvg_some_none, nullAvg_none_left, coalesceVals_cons_none,
          coalesceVals_cons_some, coalesceVals_nil, h]
    · rfl
  · intro h1 h2 h3
    simp [build_salary_mid_expr, build_salary_mid_pieces, h1, h2, h3]

/-- C3 witness: with the enriched average unresolved and only the base
salary bounds resolved, a row whose min and max both read 1000 gets
midpoint 1000 through the (min+max)/2 piece. -/
theorem salary_mid_eval_spec_witness :
    salary_mid_eval (fun _ => none) (fun _ => Val.num 1000)
        { b_key := "job_id", c_key := none, e_key := none, r_key := none,
          b_title := none, b_company := none, b_emp := none, b_level := none,
          b_sal_min := some "salary_minimum", b_sal_max := some "salary_maximum",
          b_status := none, c_primary := none, e_avg := none, e_emp := none,
          e_level := none, e_primary := none, e_sal_min := none, e_sal_max := none,
          e_status := none, r_status := none } = some 1000 := by
  rw [(salary_mid_eval_spec (fun _ => none) _ _).1]
  norm_num [avg_piece, min_piece, max_piece, SqlNum.eval, tryCastDouble,
    nullAvg_some_some, coalesceVals_cons_none, coalesceVals_cons_some]

/-- C4: plan construction fails exactly when a required field is
unresolvable — no join key in the base table, or no employment-type source
in base or enriched, or no position-level source in base or enriched — with
one of the three descriptive configuration-error messages; on success every
optional field (title, company, salary bounds, average-salary shortcut,
category, status) carries its `pick_first` result, which may be `none`
(absent) without failing the plan. -/
theorem build_plan_required_fields (cols_b cols_c cols_e cols_r : List String) :
    (except_ok (build_plan cols_b cols_c cols_e cols_r) = true ↔
      (pick_first cols_b key_candidates).isSome = true ∧
      ((pick_first cols_b ["employmentTypes", "employment_type"]).isSome = true ∨
        (pick_first cols_e ["employment_type", "employmentTypes"]).isSome = true) ∧
      ((pick_first cols_b ["positionLevels", "position_level"]).isSome = true ∨
        (pick_first cols_e ["position_level", "positionLevels"]).isSome = true)) ∧
    (∀ p : Plan, build_plan cols_b cols_c cols_e cols_r = .ok p →
      p.b_title = pick_first cols_b ["title"] ∧
      p.b_company = pick_first cols_b ["postedCompany_name", "company_name", "posted_company_name"] ∧
      p.b_sal_min = pick_first cols_b ["salary_minimum", "salary_min"] ∧
      p.b_sal_max = pick_first cols_b ["salary_maximum", "salary_max"] ∧
      p.e_avg = pick_first cols_e ["avg_salary", "average_salary", "salary_mid", "salary_midpoint"] ∧
      p.c_primary = pick_first cols_c ["primary_category", "primaryCategory", "category", "category_name"] ∧
      p.b_status = pick_first cols_b status_candidates ∧
      p.e_status = pick_first cols_e status_candidates) ∧
    (∀ e : String, build_plan cols_b cols_c cols_e cols_r = .error e →
      e = "Cannot find join key in jobs_base." ∨
      e = "Cannot find employment type column in base or enriched." ∨
      e = "Cannot find position level column in base or enriched.") := by
  cases hk : pick_first cols_b key_candidates with
  | none =>
    refine ⟨?_, ?_, ?_⟩
    · simp [build_plan, hk, except_ok]
    · intro p hp
      simp [build_plan, hk] at hp
    · intro e he
      simp only [build_plan, hk, Except.error.injEq] at he
      exact Or.inl he.symm
  | some k =>
    refine ⟨?_, ?_, ?_⟩
    · cases hbe : (pick_first cols_b ["employmentTypes", "employment_type"]).isSome <;>
        cases hee : (pick_first cols_e ["employment_type", "employmentTypes"]).isSome <;>
          cases hbl : (pick_first cols_b ["positionLevels", "position_level"]).isSome <;>
            cases hel : (pick_first cols_e ["position_level", "positionLevels"]).isSome <;>
              simp [build_plan, hk, hbe, hee, hbl, hel, except_ok]
    · intro p hp
      simp only [build_plan, hk] at hp
      split at hp
      · simp at hp
      · split at hp
        · simp at hp
        · rw [Except.ok.injEq] at hp
          subst hp
          exact ⟨rfl, rfl, rfl, rfl, rfl, rfl, rfl, rfl⟩
    · intro e he
      simp only [build_plan, hk] at he
      split at he
      · rw [Except.error.injEq] at he
        exact Or.inr (Or.inl he.symm)
      · split at he
        · rw [Except.error.injEq] at he
          exact Or.inr (Or.inr he.symm)
        · simp at he

/-- C4 witness: a base table carrying `job_id`, `employmentTypes` and
`positionLevels` (and nothing else) yields a plan; its optional title field
resolves to absent without failing. -/
theorem build_plan_required_fields_witness :
    except_ok (build_plan ["job_id", "employmentTypes", "positionLevels"] [] [] []) = true :=
  (build_plan_required_fields ["job_id", "employmentTypes", "positionLevels"] [] [] []).1.mpr
    (by decide)

/-- C5 counterexample: a database whose base table resolves every required
field but whose optional categories table is absent makes `build_plan_db`
fail, although treating the absent table as an empty column set would have
succeeded. -/
theorem build_plan_db_absent_cat_fails :
    except_ok (build_plan_db (fun t =>
      if t = "jobs_base" then some ["job_id", "employmentTypes", "positionLevels"]
      else if t = "jobs_enriched" then some []
      else if t = "jobs_raw" then some []
      else none)) = false ∧
    except_ok (build_plan ["job_id", "employmentTypes", "positionLevels"] [] [] []) = true := by
  decide

/-- C5 (amended): schema probing tolerates only the raw fallback table being
absent — an absent raw table is treated as an empty column set — while the
absence of the base, categories or enriched table fails plan construction
(base is the required table; categories and enriched also abort the plan
despite being optional sources). -/
theorem build_plan_db_spec :
    (∀ db : Db, ∀ cols_b cols_c cols_e : List String,
      db "jobs_base" = some cols_b → db "jobs_categories" = some cols_c →
      db "jobs_enriched" = some cols_e → db "jobs_raw" = none →
      build_plan_db db = build_plan cols_b cols_c cols_e []) ∧
    (∀ db : Db, db "jobs_base" = none → except_ok (build_plan_db db) = false) ∧
    (∀ db : Db, ∀ cols_b : List String, db "jobs_base" = some cols_b →
      db "jobs_categories" = none → except_ok (build_plan_db db) = false) ∧
    (∀ db : Db, ∀ cols_b cols_c : List String, db "jobs_base" = some cols_b →
      db "jobs_categories" = some cols_c → db "jobs_enriched" = none →
      except_ok (build_plan_db db) = false) := by
  refine ⟨fun db cb cc ce hb hc he hr => ?_, fun db hb => ?_,
    fun db cb hb hc => ?_, fun db cb cc hb hc he => ?_⟩ <;>
    simp [build_plan_db, get_table_cols, hb, except_ok, Bind.bind, Except.bind,
      *]

/-- C5 witness: with base, categories and enriched present and the raw table
absent, the probing stage reduces to `build_plan` with an empty raw column
list. -/
theorem build_plan_db_spec_witness :
    build_plan_db (fun t =>
        if t = "jobs_base" then some ["job_id", "employmentTypes", "positionLevels"]
        else if t = "jobs_categories" then some []
        else if t = "jobs_enriched" then some []
        else none) =
      build_plan ["job_id", "employmentTypes", "positionLevels"] [] [] [] :=
  build_plan_db_spec.1 _ _ _ _ (by decide) (by decide) (by decide) (by decide)

/-- C6: at a plan reachable from `build_plan` — the raw table carries a
status column but no join key, and neither base nor enriched supplies
status — the synthesized CTE's status expression references the raw alias
`r` while no raw LEFT JOIN is emitted, instead of falling back to an absent
(NULL) status as the stated priority requires. -/
theorem status_expr_dangling_raw :
    (build_plan ["job_id", "employmentTypes", "positionLevels"] [] [] ["jobStatus"]).toOption.map
        (fun p => (status_expr p, join_raw p)) =
      some ("r.jobStatus", "") := by
  decide

/-- C10: whenever the enriched table resolves both a join key and a
position-level (respectively employment-type) column, the synthesized CTE
selects the enriched table's column — even when the base table also
resolves one — and the base table's column is used only when the enriched
source is unavailable. -/
theorem pos_emp_expr_prefer_enriched (plan : Plan) :
    (∀ c : String, plan.e_key.isSome = true → plan.e_level = some c →
      pos_expr plan = "e." ++ c) ∧
    (plan.e_key = none ∨ plan.e_level = none →
      pos_expr plan = "b." ++ pyStr plan.b_level) ∧
    (∀ c : String, plan.e_key.isSome = true → plan.e_emp = some c →
      emp_expr plan = "e." ++ c) ∧
    (plan.e_key = none ∨ plan.e_emp = none →
      emp_expr plan = "b." ++ pyStr plan.b_emp) := by
  refine ⟨fun c hk hl => ?_, fun h => ?_, fun c hk he => ?_, fun h => ?_⟩
  · simp [pos_expr, hk, hl, pyStr]
  · rcases h with h | h <;> simp [pos_expr, h]
  · simp [emp_expr, hk, he, pyStr]
  · rcases h with h | h <;> simp [emp_expr, h]

/-- C10 witness: a plan resolving `position_level` and `employment_type` in
both the base and the enriched table selects the enriched columns. -/
theorem pos_emp_expr_prefer_enriched_witness :
    pos_expr
        { b_key := "job_id", c_key := none, e_key := some "job_id", r_key := none,
          b_title := none, b_company := none, b_emp := some "employmentTypes",
          b_level := some "positionLevels", b_sal_min := none, b_sal_max := none,
          b_status := none, c_primary := none, e_avg := none,
          e_emp := some "employment_type", e_level := some "position_level",
          e_primary := none, e_sal_min := none, e_sal_max := none,
          e_status := none, r_status := none } = "e." ++ "position_level" :=
  (pos_emp_expr_prefer_enriched _).1 "position_level" (by decide) (by decide)

/-- C9: the WHERE builder emits one set-membership predicate per non-empty
filter set, with the member values passed only as bound parameters — for
any two filter quadruples whose sets are empty in the same positions the
SQL text is identical — and an empty set contributes no predicate, so an
empty category selection leaves the population unfiltered (category values
cannot affect satisfaction, and with all sets empty every row satisfies the
clause). -/
theorem build_where_and_params_spec :
    (∀ levels cats emps sgs levels' cats' emps' sgs' : List String,
      levels.isEmpty = levels'.isEmpty → cats.isEmpty = cats'.isEmpty →
      emps.isEmpty = emps'.isEmpty → sgs.isEmpty = sgs'.isEmpty →
      (build_where_and_params levels cats emps sgs).1 =
        (build_where_and_params levels' cats' emps' sgs').1) ∧
    (∀ levels cats emps sgs : List String,
      (build_where_and_params levels cats emps sgs).2 =
        [levels, cats, emps, sgs].filter (fun l => !l.isEmpty)) ∧
    (∀ levels cats emps sgs : List String,
      (where_clauses levels cats emps sgs).length =
        ([levels, cats, emps, sgs].filter (fun l => !l.isEmpty)).length) ∧
    (∀ levels emps sgs : List String, ∀ r : JoinedRow, ∀ x : Option String,
      where_holds levels [] emps sgs { r with primary_category := x } =
        where_holds levels [] emps sgs r) ∧
    (∀ r : JoinedRow, where_holds [] [] [] [] r = true) := by
  refine ⟨fun levels cats emps sgs levels' cats' emps' sgs' h1 h2 h3 h4 => ?_,
    fun levels cats emps sgs => ?_, fun levels cats emps sgs => ?_,
    fun levels emps sgs r x => ?_, fun r => rfl⟩
  · simp only [build_where_and_params, where_clauses, h1, h2, h3, h4]
  · cases levels <;> cases cats <;> cases emps <;> cases sgs <;> rfl
  · cases levels <;> cases cats <;> cases emps <;> cases sgs <;> rfl
  · cases levels <;> cases emps <;> cases sgs <;> rfl

/-- C9 witness: category list ["A"] against ["B"] with matching emptiness
patterns produces identical SQL text. -/
theorem build_where_and_params_spec_witness :
    (build_where_and_params ["Manager"] ["A"] [] ["Open"]).1 =
      (build_where_and_params ["Executive", "Manager"] ["B"] [] ["Closed"]).1 :=
  build_where_and_params_spec.1 _ _ _ _ _ _ _ _ rfl rfl rfl rfl

theorem quantile_cont_nil (p : ℚ) : quantile_cont p [] = none := rfl

/-- C7: the aggregation executor always returns a table with exactly the
columns (position_level, bin_start, cnt, cap, bin_size) — a total function,
never a null return and never an exception — and returns the empty such
table whenever the filtered population is empty, the computed percentile
cap is undefined (NULL), or the cap is non-positive. -/
theorem load_heatmap_agg_empty_spec (rows : List JoinedRow)
    (levels cats emps sgs : List String) (pct : ℚ) (nbinsy : ℕ) :
    ((load_heatmap_agg rows levels cats emps sgs pct nbinsy).columns = heat_columns) ∧
    (heat_filter levels cats emps sgs rows = [] →
      load_heatmap_agg rows levels cats emps sgs pct nbinsy =
        { columns := heat_columns, rows := [] }) ∧
    (quantile_cont pct (heat_values (heat_filter levels cats emps sgs rows)) = none →
      load_heatmap_agg rows levels cats emps sgs pct nbinsy =
        { columns := heat_columns, rows := [] }) ∧
    (∀ cap : ℚ,
      quantile_cont pct (heat_values (heat_filter levels cats emps sgs rows)) = some cap →
      cap ≤ 0 →
      load_heatmap_agg rows levels cats emps sgs pct nbinsy =
        { columns := heat_columns, rows := [] }) := by
  refine ⟨?_, fun h => ?_, fun h => ?_, fun cap hq hcap => ?_⟩
  · rw [load_heatmap_agg]
    cases hq : quantile_cont pct (heat_values (heat_filter levels cats emps sgs rows)) with
    | none => rfl
    | some cap =>
      by_cases hcap : cap ≤ 0
      · simp [hcap]
      · simp [hcap]
  · simp [load_heatmap_agg, h, quantile_cont_nil, heat_values]
  · simp [load_heatmap_agg, h]
  · simp [load_heatmap_agg, hq, hcap]

/-- C7 witness: an empty row set yields the empty table with the five fixed
columns. -/
theorem load_heatmap_agg_empty_spec_witness :
    load_heatmap_agg [] [] [] [] [] (1 / 2) 10 = { columns := heat_columns, rows := [] } :=
  (load_heatmap_agg_empty_spec [] [] [] [] [] (1 / 2) 10).2.1 rfl

/-- The group counts of a key list sum to its length: GROUP BY with
count(*) loses no rows. -/
theorem group_counts_sum {α : Type} [DecidableEq α] (keys : List α) :
    ((group_counts keys).map (fun kc => kc.2)).sum = keys.length := by
  show ((keys.dedup.map (fun k => (k, keys.count k))).map (fun kc => kc.2)).sum = keys.length
  rw [List.map_map]
  exact List.sum_map_count_dedup_eq_length keys

/-- On a defined positive cap, `load_heatmap_agg` takes its phase-2 branch. -/
theorem load_heatmap_agg_pos (rows : List JoinedRow) (levels cats emps sgs : List String)
    (pct : ℚ) (nbinsy : ℕ) (cap : ℚ)
    (hq : quantile_cont pct (heat_values (heat_filter levels cats emps sgs rows)) = some cap)
    (hcap : 0 < cap) :
    load_heatmap_agg rows levels cats emps sgs pct nbinsy =
      { columns := heat_columns,
        rows := (group_counts (heat_keys (max (cap / (nbinsy : ℚ)) 1) cap
            (heat_filter levels cats emps sgs rows))).map
          (heat_row_of cap (max (cap / (nbinsy : ℚ)) 1)) } := by
  simp [load_heatmap_agg, hq, not_le.mpr hcap, heat_row_of]

/-- C8 (amended): for every positive cap and positive bin count, the bin
width equals `max(cap / bin_count, 1.0)` and is therefore at least 1.0; the
cap and the bin width are attached to every output row; no row is excluded
by clamping (the counts sum to the filtered population size); every
midpoint at or above the cap lands in the single top bin starting at
`floor(cap / width) * width`; and — provided the filtered midpoints are
nonnegative, which negative salary data can violate — the number of
distinct emitted bins for any single position level is at most
`ceil(cap / width) + 1`. -/
theorem load_heatmap_agg_binning_spec (rows : List JoinedRow)
    (levels cats emps sgs : List String) (pct : ℚ) (nbinsy : ℕ) (cap : ℚ)
    (hn : 0 < nbinsy)
    (hq : quantile_cont pct (heat_values (heat_filter levels cats emps sgs rows)) = some cap)
    (hcap : 0 < cap) :
    (1 : ℚ) ≤ max (cap / (nbinsy : ℚ)) 1 ∧
    (∀ hr ∈ (load_heatmap_agg rows levels cats emps sgs pct nbinsy).rows,
      hr.cap = cap ∧ hr.bin_size = max (cap / (nbinsy : ℚ)) 1) ∧
    ((load_heatmap_agg rows levels cats emps sgs pct nbinsy).rows.map HeatRow.cnt).sum =
      (heat_filter levels cats emps sgs rows).length ∧
    (∀ v : ℚ, cap ≤ v →
      bin_start_of (max (cap / (nbinsy : ℚ)) 1) (min v cap) =
        bin_start_of (max (cap / (nbinsy : ℚ)) 1) cap) ∧
    ((∀ r ∈ heat_filter levels cats emps sgs rows, ∀ v : ℚ, r.salary_mid = some v → 0 ≤ v) →
      ∀ pl : String,
        (((load_heatmap_agg rows levels cats emps sgs pct nbinsy).rows.filter
              (fun hr => hr.position_level = pl)).map HeatRow.bin_start).dedup.length ≤
          (⌈cap / max (cap / (nbinsy : ℚ)) 1⌉).toNat + 1) := by
  have hload := load_heatmap_agg_pos rows levels cats emps sgs pct nbinsy cap hq hcap
  set bs := max (cap / (nbinsy : ℚ)) 1 with hbs
  have hbs1 : (1 : ℚ) ≤ bs := le_max_right _ _
  have hbspos : (0 : ℚ) < bs := lt_of_lt_of_le one_pos hbs1
  refine ⟨hbs1, ?_, ?_, ?_, ?_⟩
  · intro hr hmem
    rw [hload] at hmem
    simp only [List.mem_map] at hmem
    obtain ⟨kc, -, rfl⟩ := hmem
    exact ⟨rfl, rfl⟩
  · rw [hload]
    show (((group_counts (heat_keys bs cap (heat_filter levels cats emps sgs rows))).map
        (heat_row_of cap bs)).map HeatRow.cnt).sum =
      (heat_filter levels cats emps sgs rows).length
    have h1 : ((group_counts (heat_keys bs cap (heat_filter levels cats emps sgs rows))).map
        (heat_row_of cap bs)).map HeatRow.cnt =
        (group_counts (heat_keys bs cap (heat_filter levels cats emps sgs rows))).map
          (fun kc => kc.2) := by
      rw [List.map_map]
      rfl
    rw [h1, group_counts_sum, heat_keys, List.length_map]
  · intro v hv
    rw [min_eq_right hv]
  · intro hnn pl
    rw [hload]
    set keys := heat_keys bs cap (heat_filter levels cats emps sgs rows) with hkeys
    set L := (((group_counts keys).map (heat_row_of cap bs)).filter
        (fun hr => hr.position_level = pl)).map HeatRow.bin_start with hL
    set m : ℤ := ⌊cap / bs⌋ with hm
    set S : Finset ℚ := (Finset.Icc (0 : ℤ) m).image (fun k : ℤ => (k : ℚ) * bs) with hS
    have key_mem : ∀ b ∈ L, b ∈ S := by
      intro b hb
      rw [hL] at hb
      simp only [List.mem_map, List.mem_filter] at hb
      obtain ⟨hr, ⟨hhr, -⟩, rfl⟩ := hb
      obtain ⟨kc, hkc, rfl⟩ := hhr
      simp only [group_counts, List.mem_map] at hkc
      obtain ⟨k, hk, rfl⟩ := hkc
      have hkmem : k ∈ keys := List.mem_dedup.mp hk
      rw [hkeys] at hkmem
      simp only [heat_keys, List.mem_map] at hkmem
      obtain ⟨r, hr_mem, rfl⟩ := hkmem
      have hsome : r.salary_mid.isSome = true := by
        have h2 := hr_mem
        simp only [heat_filter, List.mem_filter, Bool.and_eq_true] at h2
        exact h2.2.1.2
      obtain ⟨v, hv⟩ := Option.isSome_iff_exists.mp hsome
      have hv0 : 0 ≤ v := hnn r hr_mem v hv
      have hgd : r.salary_mid.getD 0 = v := by rw [hv]; rfl
      rw [hgd]
      have hw0 : 0 ≤ min v cap := le_min hv0 hcap.le
      have hwc : min v cap ≤ cap := min_le_right _ _
      have hk0 : 0 ≤ ⌊min v cap / bs⌋ := Int.floor_nonneg.mpr (div_nonneg hw0 hbspos.le)
      have hkm : ⌊min v cap / bs⌋ ≤ m := by
        rw [hm]
        exact Int.floor_le_floor ((div_le_div_iff_of_pos_right hbspos).mpr hwc)
      exact Finset.mem_image.mpr
        ⟨⌊min v cap / bs⌋, Finset.mem_Icc.mpr ⟨hk0, hkm⟩, by simp [bin_start_of, heat_row_of]⟩
    calc L.dedup.length = L.toFinset.card := (List.card_toFinset L).symm
      _ ≤ S.card :=
          Finset.card_le_card (fun b hb => key_mem b (List.mem_toFinset.mp hb))
      _ ≤ (Finset.Icc (0 : ℤ) m).card := Finset.card_image_le
      _ = (m + 1).toNat := by rw [Int.card_Icc]; norm_num
      _ ≤ (⌈cap / bs⌉).toNat + 1 := by
          have h1 : m ≤ ⌈cap / bs⌉ := Int.floor_le_ceil _
          have h2 : (0 : ℤ) ≤ ⌈cap / bs⌉ :=
            Int.ceil_nonneg (div_nonneg hcap.le hbspos.le)
          omega

/-- C8 witness: on one row with midpoint 10, cap 10 (the 0.5-quantile of a
singleton population), 10 bins, the counts sum to the filtered population
size. -/
theorem load_heatmap_agg_binning_spec_witness :
    ((load_heatmap_agg c8w_rows [] [] [] [] (1 / 2) 10).rows.map HeatRow.cnt).sum =
      (heat_filter [] [] [] [] c8w_rows).length :=
  (load_heatmap_agg_binning_spec c8w_rows [] [] [] [] (1 / 2) 10 10 (by norm_num)
    (by norm_num [quantile_cont, heat_values, heat_filter, c8w_rows, sortQ, insertSorted,
      where_holds, List.filter, List.filterMap, List.foldr])
    (by norm_num)).2.2.1

/-- C8 counterexample: with negative salary midpoints (percentile 0.8 of
[-5,-4,-3,-2,1,9] gives cap 1, one requested bin, hence bin width 1), the
aggregation emits 5 distinct bins for position level "L", exceeding the
claimed bound ceil(cap / bin_width) + 1 = 2. -/
theorem load_heatmap_agg_bins_counterexample :
    ((load_heatmap_agg c8_rows [] [] [] [] (4 / 5) 1).rows.map HeatRow.bin_start).dedup.length
        = 5 ∧
    ((load_heatmap_agg c8_rows [] [] [] [] (4 / 5) 1).rows.map
        (fun hr => (hr.position_level, hr.cap, hr.bin_size))) =
      List.replicate 5 ("L", (1 : ℚ), (1 : ℚ)) ∧
    ¬((5 : ℕ) ≤ (⌈(1 : ℚ) / 1⌉).toNat + 1) := by
  have hfil : heat_filter [] [] [] [] c8_rows = c8_rows := rfl
  have hq : quantile_cont (4 / 5) (heat_values (heat_filter [] [] [] [] c8_rows)) = some 1 := by
    have hvals : heat_values c8_rows = [-5, -4, -3, -2, 1, 9] := rfl
    have hsort : sortQ [(-5 : ℚ), -4, -3, -2, 1, 9] = [-5, -4, -3, -2, 1, 9] := by
      norm_num [sortQ, insertSorted]
    rw [hfil, hvals]
    simp only [quantile_cont, hsort]
    norm_num
    rfl
  have hload := load_heatmap_agg_pos c8_rows [] [] [] [] (4 / 5) 1 1 hq one_pos
  norm_num at hload
  rw [hfil] at hload
  have hkeys : heat_keys 1 1 c8_rows =
      [("L", (-5 : ℚ)), ("L", -4), ("L", -3), ("L", -2), ("L", 1), ("L", 1)] := by
    norm_num [heat_keys, c8_rows, bin_start_of]
  rw [hkeys] at hload
  have hdedup : ([("L", (-5 : ℚ)), ("L", -4), ("L", -3), ("L", -2), ("L", 1), ("L", 1)]).dedup =
      [("L", (-5 : ℚ)), ("L", -4), ("L", -3), ("L", -2), ("L", 1)] := by
    norm_num [List.dedup_cons_of_not_mem, List.dedup_cons_of_mem]
  have hgc : group_counts [("L", (-5 : ℚ)), ("L", -4), ("L", -3), ("L", -2), ("L", 1), ("L", 1)] =
      [(("L", (-5 : ℚ)), 1), (("L", -4), 1), (("L", -3), 1), (("L", -2), 1), (("L", 1), 2)] := by
    simp only [group_counts, hdedup, List.map_cons, List.map_nil]
    norm_num [List.count_cons, instBEqOfDecidableEq, decide_eq_true_eq, Prod.mk.injEq]
  rw [hgc] at hload
  rw [hload]
  refine ⟨?_, ?_, by norm_num⟩
  · norm_num [heat_row_of, List.dedup_cons_of_not_mem, List.dedup_cons_of_mem]
  · norm_num [heat_row_of, List.replicate]

end SGJob
